import Mathlib

/-!
Verification development for the transaction-service dispatcher
(src/as/src/base/thr_tsvc.c) and the streaming aggregation engine
(src/as/src/base/aggr.c) of the aerospike-server core.

The embedding is a shallow one: each C function that the claims touch is
translated into an executable Lean function over explicit state, and the
externally visible actions (replies, reservations, releases, executor
dispatch, message frees) are recorded in an event trace.  External
collaborators (security layer, partition gateway, executors, proxy fabric,
scripting runtime) are modelled as oracles supplied in an environment
record, exactly at the granularity the C code consumes their results.
-/

/-! ## Aggregation engine (aggr.c) -/

/-- Model of as_index_keys_arr: num counts the valid entries, while the
backing arrays pindex_digs and sindex_keys may have extra allocated slots
beyond num (reading such a slot is an out-of-bounds read with respect to
the valid count).  Digests and secondary keys are abstracted as naturals. -/
structure KeysArr where
  num : Nat
  pindex_digs : List Nat
  sindex_keys : List Nat
deriving DecidableEq

/-- Model of the aggr_obj cursor state: the remaining elements the outer
linked-list iterator will yield, the current batch pointer, the offset in
the current batch and the record-open flag. -/
structure AggrState where
  iterBatches : List KeysArr
  keys_arr : Option KeysArr
  keys_arr_offset : Nat
  rec_open : Bool
deriving DecidableEq

/-- Effects emitted by the cursor close path: closing the udf record handle
and releasing the partition reservation through the hook vector. -/
inductive AEv
  | udfRecordClose
  | ptnRelease
deriving DecidableEq

/-- Translation of aclose from aggr.c: when the record is open, close the
udf record, release the reservation through the hook and clear the flag;
otherwise do nothing. -/
def aclose (s : AggrState) : AggrState × List AEv :=
  if s.rec_open then
    ({ s with rec_open := false }, [AEv.udfRecordClose, AEv.ptnRelease])
  else
    (s, [])

/-- Translation of get_next from aggr.c.  The result some i means the C
function returned the pointer to pindex_digs at index i of the post-state
current batch; none means it returned NULL (end of stream).  The first
block loads a batch when none is current; then, when the offset equals the
valid count, the next batch is loaded at offset zero, otherwise the offset
is incremented before the slot is returned. -/
def get_next (s : AggrState) : AggrState × Option Nat :=
  let s1 :=
    if s.keys_arr = none then
      match s.iterBatches with
      | [] => { s with keys_arr := none, keys_arr_offset := 0 }
      | b :: rest =>
          { s with iterBatches := rest, keys_arr := some b, keys_arr_offset := 0 }
    else s
  match s1.keys_arr with
  | none => (s1, none)
  | some ka =>
    if ka.num = s1.keys_arr_offset then
      match s1.iterBatches with
      | [] => (s1, none)
      | b :: rest =>
          ({ s1 with iterBatches := rest, keys_arr := some b, keys_arr_offset := 0 },
            some 0)
    else
      ({ s1 with keys_arr_offset := s1.keys_arr_offset + 1 },
        some (s1.keys_arr_offset + 1))

/-- Value stored at the slot the cursor currently points to, none when no
batch is loaded or the offset lies beyond the allocated array. -/
def current_dig (s : AggrState) : Option Nat :=
  match s.keys_arr with
  | none => none
  | some ka => ka.pindex_digs.get? s.keys_arr_offset

/-- Successive results of get_next: for each call, none when it returned
NULL, otherwise the pair of the index it returned and the digest value
stored in that slot. -/
def get_next_trace : AggrState → Nat → List (Option (Nat × Option Nat))
  | _, 0 => []
  | s, n + 1 =>
    let p := get_next s
    (match p.2 with
     | none => none
     | some i => some (i, current_dig p.1)) :: get_next_trace p.1 n

/-- Translation of aopen from aggr.c with the externally decided outcomes
(ptn_reserve hook and udf_record_open, both outside src) collapsed into one
oracle on the digest: on success the record-open flag is set, on failure
the state is unchanged (any reservation taken inside aopen is released
there before it fails). -/
def aopen (openOk : Nat → Bool) (s : AggrState) (d : Nat) : AggrState × Bool :=
  if openOk d then ({ s with rec_open := true }, true) else (s, false)

/-- Result of one istream_read call: a record value produced, end of
stream (NULL), a dereference of the NULL keys_arr pointer, a read beyond
the allocated digest array, or fuel exhaustion of the model. -/
inductive StreamRead
  | value
  | eos
  | nullKeysArr
  | oobRead
  | fuelOut
deriving DecidableEq

/-- Translation of the while loop of istream_read from aggr.c, with fuel.
The loop runs while the record is not open.  Mirroring the source text
exactly: when get_next returns non-NULL the function returns NULL (end of
stream); when get_next returns NULL the code falls through and reads
keys_arr at the current offset (modelled as nullKeysArr when no batch is
loaded and oobRead when the offset is beyond the allocated array), then
tries aopen, and after a successful open applies pre_check, closing and
continuing on rejection. -/
def istream_loop (openOk preCheck : Nat → Bool) : Nat → AggrState → AggrState × StreamRead
  | 0, s => (s, StreamRead.fuelOut)
  | fuel + 1, s =>
    if s.rec_open then (s, StreamRead.value)
    else
      let p := get_next s
      match p.2 with
      | some _ => (p.1, StreamRead.eos)
      | none =>
        match p.1.keys_arr with
        | none => (p.1, StreamRead.nullKeysArr)
        | some ka =>
          match ka.pindex_digs.get? p.1.keys_arr_offset with
          | none => (p.1, StreamRead.oobRead)
          | some d =>
            let q := aopen openOk p.1 d
            if q.2 then
              if preCheck d then istream_loop openOk preCheck fuel q.1
              else istream_loop openOk preCheck fuel (aclose q.1).1
            else istream_loop openOk preCheck fuel q.1

/-- Translation of istream_read from aggr.c: close any open record, then
run the fetch loop. -/
def istream_read (openOk preCheck : Nat → Bool) (fuel : Nat) (s : AggrState) :
    AggrState × StreamRead :=
  istream_loop openOk preCheck fuel (aclose s).1

/-! ## Transaction service dispatcher (thr_tsvc.c) -/

/-- Transaction origin tag (FROM_CLIENT, FROM_PROXY, FROM_IUDF, FROM_NSUP,
FROM_BATCH). -/
inductive Origin
  | client
  | proxy
  | iudf
  | nsup
  | batch
deriving DecidableEq

/-- Protocol result codes the dispatcher produces or passes through.  The
numeric values live in proto.h, outside src, so the codes are modelled
symbolically; secCode carries a verbatim code returned by the security
layer. -/
inductive RCode
  | ok
  | failUnknown
  | failParameter
  | failNamespace
  | failUnavailable
  | failTimeout
  | secCode (n : Nat)
deriving DecidableEq

/-- Permissions passed to the security data-op check. -/
inductive Perm
  | permNone
  | read
  | write
  | scan
  | udfScan
  | query
  | udfQuery
deriving DecidableEq

/-- Single-record executor statuses (transaction_status). -/
inductive TransStatus
  | doneError
  | doneSuccess
  | inProgress
  | waiting
deriving DecidableEq

/-- The four sibling single-record executors. -/
inductive Exec
  | write
  | delete
  | udf
  | read
deriving DecidableEq

/-- Partition reservation modes. -/
inductive RsvMode
  | read
  | write
  | migrate
deriving DecidableEq

/-- Statistics counters incremented by the dispatcher. -/
inductive StatName
  | batchErrors
  | queryReqs
  | queryFail
deriving DecidableEq

/-- Externally visible actions of one process_transaction run, in program
order.  reserve records the mode, the partition id argument and whether
the gateway granted it; queryStart and scanStart record whether the
executor took the transaction over (returned zero); proxyDivert records
whether the fabric accepted the message. -/
inductive Ev
  | xdr
  | secLog
  | reply (c : RCode)
  | multiReply (c : RCode)
  | statIncr (s : StatName)
  | batchDirectStart
  | queryStart (tookOver : Bool)
  | scanStart (tookOver : Bool)
  | reserve (m : RsvMode) (pid : Nat) (granted : Bool)
  | release
  | execStart (e : Exec)
  | execReturn (st : TransStatus)
  | proxyDivert (accepted : Bool)
  | proxyReturn
  | iudfCb (c : RCode)
  | freeMsg
deriving DecidableEq

/-- Abnormal terminations: cf_crash on a zero destination node, or an
undefined-behavior dereference of an absent message field in the digest
computation. -/
inductive Halt
  | ok
  | crashDest
  | derefDigest
  | derefKey
  | derefSet
deriving DecidableEq

/-- One protocol message field: its value size and value bytes. -/
structure MsgField where
  size : Nat
  data : List Nat
deriving DecidableEq

/-- The parts of the protocol message the dispatcher consumes: the
transaction ttl, the READ bit of info1, the WRITE bit of info2, and the
four keyed fields it looks up (absent fields are none, matching a NULL
as_msg_field_get result). -/
structure AsMsg where
  transactionTtl : Nat
  info1Read : Bool
  info2Write : Bool
  nsField : Option MsgField
  digestField : Option MsgField
  keyField : Option MsgField
  setField : Option MsgField
deriving DecidableEq

/-- The transaction as the dispatcher sees it.  The as_transaction_is_xxx
predicates are computed by message parsing outside src, so they appear as
fields here. -/
structure Transaction where
  protoTypeXdr : Bool
  origin : Origin
  shippedOp : Bool
  startTime : Nat
  endTime : Nat
  resultCode : RCode
  keyd : List Nat
  isRestart : Bool
  msg : AsMsg
  isNsupDelete : Bool
  isMultiRecord : Bool
  isBatchDirect : Bool
  isQuery : Bool
  isUdf : Bool
  isDelete : Bool
  isBatchSub : Bool
  hasDigest : Bool
  hasSet : Bool
deriving DecidableEq

/-- Result of as_partition_reserve_migrate: destination node and duplicate
count of the reservation (the call is infallible). -/
structure MigrateRes where
  dest : Nat
  nDupl : Nat

/-- Result of as_partition_reserve_write: whether rv was zero, the
destination node and the cluster key. -/
structure WriteRes where
  rvOk : Bool
  dest : Nat
  clusterKey : Nat

/-- Result of as_partition_reserve_read: whether rv was zero, the
destination node, the cluster key and the duplicate count left in the
reservation. -/
structure ReadReserveRes where
  rvOk : Bool
  dest : Nat
  clusterKey : Nat
  nDupl : Nat

/-- Oracle results of every external collaborator one run consults,
together with the configuration values read. -/
structure Env where
  securityCheck : RCode
  secDataOp : Perm → Bool
  nsResolved : Bool
  balanceResolved : Bool
  now : Nat
  transactionMaxNs : Nat
  batchDirectRv : Option RCode
  queryOk : Bool
  scanRv : Option RCode
  pidOf : List Nat → Nat
  digestCompute2 : List Nat → List Nat → List Nat
  reserveMigrate : MigrateRes
  reserveWrite : WriteRes
  reserveRead : ReadReserveRes
  execStatus : Exec → TransStatus
  proxyOk : Bool

/-- Outcome of the dispatcher body (everything between the XDR shortcut
and the Cleanup label): the event trace, the free_msgp flag at Cleanup,
the end_time value of the transaction and the halt kind. -/
structure BodyOut where
  events : List Ev
  freeMsgp : Bool
  endTime : Nat
  halt : Halt

/-- Translation of should_security_check_data_op from thr_tsvc.c. -/
def should_security_check_data_op (tr : Transaction) : Bool :=
  decide (tr.origin = Origin.client ∨ tr.origin = Origin.batch)

/-- Executor chosen on the reservation-success branch: delete, udf (also
for internal-udf origin), write, or read when the write bit is clear. -/
def exec_choice (tr : Transaction) : Exec :=
  if tr.msg.info2Write then
    if tr.isDelete then Exec.delete
    else if tr.origin = Origin.iudf ∨ tr.isUdf then Exec.udf
    else Exec.write
  else Exec.read

/-- Translation of the status switch on the reservation-success branch:
done statuses release the reservation and leave the message to Cleanup;
in-progress keeps both message and reservation; waiting releases the
reservation but keeps the message. -/
def rsv_success (env : Env) (tr : Transaction) (pre : List Ev) (et : Nat) : BodyOut :=
  let ex := exec_choice tr
  match env.execStatus ex with
  | TransStatus.doneError =>
      { events := pre ++ [Ev.execStart ex, Ev.execReturn TransStatus.doneError, Ev.release],
        freeMsgp := true, endTime := et, halt := Halt.ok }
  | TransStatus.doneSuccess =>
      { events := pre ++ [Ev.execStart ex, Ev.execReturn TransStatus.doneSuccess, Ev.release],
        freeMsgp := true, endTime := et, halt := Halt.ok }
  | TransStatus.inProgress =>
      { events := pre ++ [Ev.execStart ex, Ev.execReturn TransStatus.inProgress],
        freeMsgp := false, endTime := et, halt := Halt.ok }
  | TransStatus.waiting =>
      { events := pre ++ [Ev.execStart ex, Ev.execReturn TransStatus.waiting, Ev.release],
        freeMsgp := false, endTime := et, halt := Halt.ok }

/-- Translation of the origin switch on the reservation-failure branch:
client and batch try the proxy divert, proxy origin returns to sender,
internal udf invokes its callback, nsup drops silently. -/
def rsv_fail (env : Env) (tr : Transaction) (pre : List Ev) (et : Nat) : BodyOut :=
  match tr.origin with
  | Origin.client =>
      if env.proxyOk then
        { events := pre ++ [Ev.proxyDivert true], freeMsgp := false,
          endTime := et, halt := Halt.ok }
      else
        { events := pre ++ [Ev.proxyDivert false, Ev.reply RCode.failUnknown],
          freeMsgp := true, endTime := et, halt := Halt.ok }
  | Origin.batch =>
      if env.proxyOk then
        { events := pre ++ [Ev.proxyDivert true], freeMsgp := false,
          endTime := et, halt := Halt.ok }
      else
        { events := pre ++ [Ev.proxyDivert false, Ev.reply RCode.failUnknown],
          freeMsgp := true, endTime := et, halt := Halt.ok }
  | Origin.proxy =>
      { events := pre ++ [Ev.proxyReturn], freeMsgp := true, endTime := et, halt := Halt.ok }
  | Origin.iudf =>
      { events := pre ++ [Ev.iudfCb RCode.failUnknown], freeMsgp := true,
        endTime := et, halt := Halt.ok }
  | Origin.nsup =>
      { events := pre, freeMsgp := true, endTime := et, halt := Halt.ok }

/-- Common tail of the reservation section: the zero-destination crash
check, then the success or failure branch on rv. -/
def after_reserve (env : Env) (tr : Transaction) (pre : List Ev) (rvOk : Bool)
    (dest : Nat) (et : Nat) : BodyOut :=
  if dest = 0 then
    { events := pre, freeMsgp := true, endTime := et, halt := Halt.crashDest }
  else if rvOk then rsv_success env tr pre et
  else rsv_fail env tr pre et

/-- Translation of the mode-selection and reservation section of
process_transaction: shipped-op sanity check and migrate reservation,
write reservation behind the write-permission check, read reservation
behind the read-permission check with the duplicate upgrade to a write
reservation, and the neither-read-nor-write protocol violation. -/
def reserve_stage (env : Env) (tr : Transaction) (keyd : List Nat) (et : Nat) : BodyOut :=
  let pid := env.pidOf keyd
  if tr.shippedOp then
    if ¬ tr.msg.info2Write then
      { events := [Ev.reply RCode.failUnknown], freeMsgp := true, endTime := et, halt := Halt.ok }
    else
      let mig := env.reserveMigrate
      if mig.nDupl ≠ 0 then
        { events := [Ev.reserve RsvMode.migrate pid true, Ev.release,
            Ev.reply RCode.failUnknown],
          freeMsgp := true, endTime := et, halt := Halt.ok }
      else
        after_reserve env tr [Ev.reserve RsvMode.migrate pid true] true mig.dest et
  else if tr.msg.info2Write then
    if should_security_check_data_op tr ∧ ¬ env.secDataOp Perm.write then
      { events := [Ev.reply tr.resultCode], freeMsgp := true, endTime := et, halt := Halt.ok }
    else
      let w := env.reserveWrite
      after_reserve env tr [Ev.reserve RsvMode.write pid w.rvOk] w.rvOk w.dest et
  else if tr.msg.info1Read then
    if should_security_check_data_op tr ∧ ¬ env.secDataOp Perm.read then
      { events := [Ev.reply tr.resultCode], freeMsgp := true, endTime := et, halt := Halt.ok }
    else
      let r := env.reserveRead
      if r.rvOk ∧ r.nDupl > 0 then
        let w := env.reserveWrite
        after_reserve env tr
          [Ev.reserve RsvMode.read pid true, Ev.release,
            Ev.reserve RsvMode.write pid w.rvOk]
          w.rvOk w.dest et
      else
        after_reserve env tr [Ev.reserve RsvMode.read pid r.rvOk] r.rvOk r.dest et
  else
    { events := [Ev.reply RCode.failParameter], freeMsgp := true, endTime := et, halt := Halt.ok }

/-- Translation of the single-record section: deadline computation from the
message ttl or the configured maximum, the queue-timeout check, then the
digest step (explicit digest field with its exact-size check, or digest
computed from the key and set fields with the unguarded dereferences the
source performs, or the digest already carried by a batch sub-transaction),
then the reservation section. -/
def single_record (env : Env) (tr : Transaction) : BodyOut :=
  let et :=
    if tr.msg.transactionTtl ≠ 0 then
      tr.startTime + tr.msg.transactionTtl * 1000000
    else
      tr.startTime + env.transactionMaxNs
  if env.now > et then
    { events := [Ev.reply RCode.failTimeout], freeMsgp := true, endTime := et, halt := Halt.ok }
  else if tr.hasDigest then
    match tr.msg.digestField with
    | none =>
        { events := [], freeMsgp := true, endTime := et, halt := Halt.derefDigest }
    | some df =>
        if df.size ≠ 20 then
          { events := [Ev.reply RCode.failParameter], freeMsgp := true,
            endTime := et, halt := Halt.ok }
        else
          reserve_stage env tr df.data et
  else if ¬ tr.isBatchSub then
    match tr.msg.keyField with
    | none =>
        { events := [], freeMsgp := true, endTime := et, halt := Halt.derefKey }
    | some kf =>
        match (if tr.hasSet then tr.msg.setField else none) with
        | none =>
            { events := [], freeMsgp := true, endTime := et, halt := Halt.derefSet }
        | some sf =>
            reserve_stage env tr (env.digestCompute2 sf.data kf.data) et
  else
    reserve_stage env tr tr.keyd et

/-- Translation of the multi-record section: optional deadline from the
message ttl, then old batch, query or scan, each behind its permission
check; query and scan clear free_msgp when the executor takes the
transaction over. -/
def multi_record (env : Env) (tr : Transaction) : BodyOut :=
  let et :=
    if tr.msg.transactionTtl ≠ 0 then
      tr.startTime + tr.msg.transactionTtl * 1000000
    else
      tr.endTime
  if tr.isBatchDirect then
    if ¬ env.secDataOp Perm.read then
      { events := [Ev.multiReply tr.resultCode], freeMsgp := true, endTime := et, halt := Halt.ok }
    else
      match env.batchDirectRv with
      | none =>
          { events := [Ev.batchDirectStart], freeMsgp := true, endTime := et, halt := Halt.ok }
      | some c =>
          { events := [Ev.batchDirectStart, Ev.multiReply c, Ev.statIncr StatName.batchErrors],
            freeMsgp := true, endTime := et, halt := Halt.ok }
  else if tr.isQuery then
    if ¬ env.secDataOp (if tr.isUdf then Perm.udfQuery else Perm.query) then
      { events := [Ev.statIncr StatName.queryReqs, Ev.multiReply tr.resultCode],
        freeMsgp := true, endTime := et, halt := Halt.ok }
    else if env.queryOk then
      { events := [Ev.statIncr StatName.queryReqs, Ev.queryStart true],
        freeMsgp := false, endTime := et, halt := Halt.ok }
    else
      { events := [Ev.statIncr StatName.queryReqs, Ev.queryStart false,
          Ev.statIncr StatName.queryFail, Ev.multiReply tr.resultCode],
        freeMsgp := true, endTime := et, halt := Halt.ok }
  else
    if ¬ env.secDataOp (if tr.isUdf then Perm.udfScan else Perm.scan) then
      { events := [Ev.multiReply tr.resultCode], freeMsgp := true, endTime := et, halt := Halt.ok }
    else
      match env.scanRv with
      | none =>
          { events := [Ev.scanStart true], freeMsgp := false, endTime := et, halt := Halt.ok }
      | some c =>
          { events := [Ev.scanStart false, Ev.multiReply c], freeMsgp := true,
            endTime := et, halt := Halt.ok }

/-- Dispatcher body between the XDR shortcut and Cleanup: authentication
for client origin, namespace field and namespace resolution, the first
partition-balance readiness gate, then the multi-record or single-record
section. -/
def tsvc_body (env : Env) (tr : Transaction) : BodyOut :=
  if tr.origin = Origin.client ∧ env.securityCheck ≠ RCode.ok then
    { events := [Ev.secLog, Ev.reply env.securityCheck], freeMsgp := true,
      endTime := tr.endTime, halt := Halt.ok }
  else if tr.msg.nsField = none then
    { events := [Ev.reply RCode.failNamespace], freeMsgp := true,
      endTime := tr.endTime, halt := Halt.ok }
  else if ¬ env.nsResolved then
    { events := [Ev.reply RCode.failNamespace], freeMsgp := true,
      endTime := tr.endTime, halt := Halt.ok }
  else if ¬ env.balanceResolved ∧ ¬ tr.isNsupDelete then
    { events := [Ev.reply RCode.failUnavailable], freeMsgp := true,
      endTime := tr.endTime, halt := Halt.ok }
  else if tr.isMultiRecord then multi_record env tr
  else single_record env tr

/-- Result of one full process_transaction run. -/
structure POut where
  events : List Ev
  endTime : Nat
  halt : Halt

/-- Translation of process_transaction from thr_tsvc.c: the XDR shortcut
hands the message to the replication handler and returns; otherwise the
body runs and the Cleanup label frees the message exactly when free_msgp
is still set and the origin is not batch (crash and undefined-behavior
halts never reach Cleanup). -/
def process_transaction (env : Env) (tr : Transaction) : POut :=
  if tr.protoTypeXdr then
    { events := [Ev.xdr], endTime := tr.endTime, halt := Halt.ok }
  else
    let b := tsvc_body env tr
    { events := b.events ++
        (if b.halt = Halt.ok ∧ b.freeMsgp ∧ tr.origin ≠ Origin.batch then [Ev.freeMsg] else []),
      endTime := b.endTime, halt := b.halt }

/-- Number of freeMsg events in a trace. -/
def count_free (evs : List Ev) : Nat :=
  evs.countP fun e => match e with | Ev.freeMsg => true | _ => false

/-- Number of release events in a trace. -/
def count_release (evs : List Ev) : Nat :=
  evs.countP fun e => match e with | Ev.release => true | _ => false

/-- Number of granted reservations in a trace. -/
def count_reserve_ok (evs : List Ev) : Nat :=
  evs.countP fun e => match e with | Ev.reserve _ _ true => true | _ => false

/-- Number of reservation attempts of a given mode in a trace. -/
def count_reserve_mode (m : RsvMode) (evs : List Ev) : Nat :=
  evs.countP fun e => match e with | Ev.reserve m2 _ _ => decide (m2 = m) | _ => false

/-- Number of reservation attempts of any mode in a trace. -/
def count_reserve_any (evs : List Ev) : Nat :=
  evs.countP fun e => match e with | Ev.reserve _ _ _ => true | _ => false

/-- Number of error replies with a given code in a trace. -/
def count_reply (c : RCode) (evs : List Ev) : Nat :=
  evs.countP fun e => match e with | Ev.reply c2 => decide (c2 = c) | _ => false

/-- True when the trace records an executor that returned in-progress. -/
def has_in_progress (evs : List Ev) : Bool :=
  evs.any fun e => match e with | Ev.execReturn TransStatus.inProgress => true | _ => false

/-- True when the trace shows message-buffer ownership leaving the
dispatcher: the XDR handler took it, an executor returned in-progress or
waiting, a scan or query executor took the transaction over, or the proxy
fabric accepted the message. -/
def msg_transferred (evs : List Ev) : Bool :=
  evs.any fun e =>
    match e with
    | Ev.xdr => true
    | Ev.execReturn TransStatus.inProgress => true
    | Ev.execReturn TransStatus.waiting => true
    | Ev.queryStart true => true
    | Ev.scanStart true => true
    | Ev.proxyDivert true => true
    | _ => false

/-! ## Queue plane routing (thr_tsvc_enqueue) -/

/-- The configuration values the routing code reads. -/
structure QueuePlaneCfg where
  useQueuePerDevice : Bool
  nTransactionQueues : Nat

/-- The proto_peek fields the routing code reads: the READ bit of info1,
byte 8 of the digest, and the device count and first queue index of the
target namespace. -/
structure ProtoPeek where
  info1Read : Bool
  digest8 : Nat
  nsNDevices : Nat
  nsQueueOffset : Nat

/-- Translation of the queue-index computation of thr_tsvc_enqueue: in
queue-per-device mode a namespace with devices maps reads to
digest byte 8 mod n_devices plus the namespace offset and writes to the
same plus n_devices, a memory-only namespace maps reads to the offset and
writes to the offset plus one; otherwise the round-robin counter modulo
the queue count is used. -/
def thr_tsvc_enqueue_index (cfg : QueuePlaneCfg) (pp : ProtoPeek) (gCurrentQ : Nat) : Nat :=
  if cfg.useQueuePerDevice then
    if pp.nsNDevices ≠ 0 then
      if pp.info1Read then
        pp.digest8 % pp.nsNDevices + pp.nsQueueOffset
      else
        pp.digest8 % pp.nsNDevices + pp.nsQueueOffset + pp.nsNDevices
    else
      if pp.info1Read then pp.nsQueueOffset else pp.nsQueueOffset + 1
  else
    gCurrentQ % cfg.nTransactionQueues

/-- Digest bytes the reservation stage receives, as determined by the
digest step of the single-record section: the digest field value, or the
computed digest from the set and key fields, or the digest already carried
by a batch sub-transaction. -/
def tr_keyd (env : Env) (tr : Transaction) : List Nat :=
  if tr.hasDigest then
    match tr.msg.digestField with
    | some df => df.data
    | none => []
  else if ¬ tr.isBatchSub then
    match tr.msg.keyField, (if tr.hasSet then tr.msg.setField else none) with
    | some kf, some sf => env.digestCompute2 sf.data kf.data
    | _, _ => []
  else tr.keyd

/-- True when the digest step neither replies with an error nor performs an
undefined dereference: a present digest field of exactly twenty bytes, or
the key-and-set path with both fields present, or a batch sub-transaction. -/
def digest_stage_ok (tr : Transaction) : Bool :=
  if tr.hasDigest then
    match tr.msg.digestField with
    | some df => decide (df.size = 20)
    | none => false
  else if ¬ tr.isBatchSub then
    tr.msg.keyField.isSome && (if tr.hasSet then tr.msg.setField.isSome else false)
  else true

/-- Invariant of the dispatcher body used to derive the message-ownership
and reservation-balance claims: ownership transfer recorded in the trace
matches the cleared free_msgp flag, the body itself never frees the
message, and on non-aborting runs granted reservations balance releases
except for the one a still-in-progress executor keeps. -/
def body_inv (b : BodyOut) : Prop :=
  msg_transferred b.events = ! b.freeMsgp ∧
  count_free b.events = 0 ∧
  (b.halt = Halt.ok →
    count_reserve_ok b.events = count_release b.events +
      (if has_in_progress b.events then 1 else 0))

/-- Concrete benign environment used by witnesses: every external check
succeeds, reservations are granted locally with no duplicates, the
executor finishes synchronously. -/
def envA : Env :=
  { securityCheck := RCode.ok
    secDataOp := fun _ => true
    nsResolved := true
    balanceResolved := true
    now := 0
    transactionMaxNs := 1000
    batchDirectRv := none
    queryOk := true
    scanRv := none
    pidOf := fun l => l.headD 0
    digestCompute2 := fun s k => s ++ k
    reserveMigrate := { dest := 1, nDupl := 0 }
    reserveWrite := { rvOk := true, dest := 1, clusterKey := 5 }
    reserveRead := { rvOk := true, dest := 1, clusterKey := 5, nDupl := 0 }
    execStatus := fun _ => TransStatus.doneSuccess
    proxyOk := true }

/-- Environment whose executor keeps the transaction in progress. -/
def envInProg : Env :=
  { envA with execStatus := fun _ => TransStatus.inProgress }

/-- Environment whose read reservation comes back with two duplicates. -/
def envDupl : Env :=
  { envA with reserveRead := { rvOk := true, dest := 1, clusterKey := 5, nDupl := 2 } }

/-- Concrete single-record client read transaction carrying a digest. -/
def trRead : Transaction :=
  { protoTypeXdr := false
    origin := Origin.client
    shippedOp := false
    startTime := 0
    endTime := 0
    resultCode := RCode.ok
    keyd := [3]
    isRestart := false
    msg := { transactionTtl := 0, info1Read := true, info2Write := false,
             nsField := some ⟨4, [1]⟩, digestField := some ⟨20, [2]⟩,
             keyField := some ⟨3, [9]⟩, setField := some ⟨2, [8]⟩ }
    isNsupDelete := false, isMultiRecord := false, isBatchDirect := false
    isQuery := false, isUdf := false, isDelete := false, isBatchSub := false
    hasDigest := true, hasSet := true }

/-- Concrete old-client transaction with a KEY field but no SET field and
no digest field. -/
def trNoSet : Transaction :=
  { trRead with
    hasDigest := false, hasSet := false
    msg := { trRead.msg with digestField := none, setField := none } }

/-- Concrete old-client transaction with no KEY field and no digest
field. -/
def trNoKey : Transaction :=
  { trRead with
    hasDigest := false
    msg := { trRead.msg with digestField := none, keyField := none } }

/-- Concrete shipped-op transaction from a peer proxy whose write bit is
clear. -/
def trShipped : Transaction :=
  { trRead with origin := Origin.proxy, shippedOp := true }

/-! ## Theorems -/

/-- Claim C7: closing the aggregation cursor twice has the same effect on
the cursor state as closing it once; the second close performs no record
close and no reservation release. -/
theorem aclose_idempotent (s : AggrState) :
    (aclose (aclose s).1).1 = (aclose s).1 ∧ (aclose (aclose s).1).2 = [] := by
  unfold aclose
  by_cases h : s.rec_open <;> simp [h]

/-- Claim C1 (code bug): on a stream holding one identifier whose record
opens successfully and passes pre_check, istream_read reports end of
stream, and on an empty stream it dereferences the NULL batch pointer
instead of reporting end of stream.  The source tests the result of
get_next with the condition inverted, so read yields end of stream exactly
when a next identifier exists. -/
theorem istream_read_inverted_eos :
    (istream_read (fun _ => true) (fun _ => true) 10
        ⟨[⟨1, [7, 55], [0, 0]⟩], none, 0, false⟩).2 = StreamRead.eos ∧
    (istream_read (fun _ => true) (fun _ => true) 10
        ⟨[], none, 0, false⟩).2 = StreamRead.nullKeysArr := by
  exact ⟨rfl, rfl⟩

/-- Claim C6 (code bug): over two linked batches of two digests each
(digests 10, 11 then 12, 13, with sentinel values 99 and 98 in the
allocated slots beyond the valid count), get_next never yields the first
digest of the first batch, and yields the slot at index two, equal to the
valid count, of both batches. -/
theorem get_next_skips_and_overruns :
    get_next_trace ⟨[⟨2, [10, 11, 99], [0, 0, 0]⟩, ⟨2, [12, 13, 98], [0, 0, 0]⟩],
        none, 0, false⟩ 6 =
      [some (1, some 11), some (2, some 99), some (0, some 12),
        some (1, some 13), some (2, some 98), none] ∧
    ((get_next_trace ⟨[⟨2, [10, 11, 99], [0, 0, 0]⟩, ⟨2, [12, 13, 98], [0, 0, 0]⟩],
        none, 0, false⟩ 6).all fun o =>
      match o with
      | some (_, some d) => decide (d ≠ 10)
      | _ => true) = true := by
  exact ⟨rfl, rfl⟩

/-- Claim C10 (code bug): with no digest field, a message whose SET field
is absent drives the digest computation of process_transaction into
dereferencing the NULL set-field pointer, and a message whose KEY field is
absent into dereferencing the NULL key-field pointer. -/
theorem digest_step_null_deref :
    (process_transaction envA trNoSet).halt = Halt.derefSet ∧
    (process_transaction envA trNoKey).halt = Halt.derefKey := by
  exact ⟨rfl, rfl⟩

/-- Claim C8: in queue-per-device mode with a device-backed namespace, the
router picks digest byte 8 mod n_devices plus the namespace queue offset
for reads, and adds n_devices for writes. -/
theorem enqueue_index_device_mode (cfg : QueuePlaneCfg) (pp : ProtoPeek) (g : Nat)
    (hq : cfg.useQueuePerDevice = true) (hd : pp.nsNDevices ≠ 0) :
    thr_tsvc_enqueue_index cfg pp g =
      pp.digest8 % pp.nsNDevices + pp.nsQueueOffset +
        (if pp.info1Read then 0 else pp.nsNDevices) := by
  unfold thr_tsvc_enqueue_index
  by_cases hr : pp.info1Read <;> simp [hq, hd, hr]

/-- Witness for the device-mode routing theorem at the concrete scenario of
the claim: four devices, queue offset ten, a write whose digest byte 8 is
nine maps to queue index fifteen. -/
theorem enqueue_index_device_mode_witness :
    thr_tsvc_enqueue_index ⟨true, 64⟩ ⟨false, 9, 4, 10⟩ 0 = 15 := by
  have h := enqueue_index_device_mode ⟨true, 64⟩ ⟨false, 9, 4, 10⟩ 0 rfl (by decide)
  simpa using h


/-- The reservation-success status switch preserves the body invariant
when entered with one live reservation recorded in the preceding trace. -/
theorem rsv_success_inv (env : Env) (tr : Transaction) (pre : List Ev) (et : Nat)
    (h1 : msg_transferred pre = false) (h2 : count_free pre = 0)
    (h3 : has_in_progress pre = false)
    (h4 : count_reserve_ok pre = count_release pre + 1) :
    body_inv (rsv_success env tr pre et) := by
  unfold body_inv rsv_success
  unfold msg_transferred count_free count_reserve_ok count_release has_in_progress at *
  cases hst : env.execStatus (exec_choice tr) <;>
    simp_all [List.countP_append, List.countP_cons, List.any_append]

/-- The reservation-failure origin switch preserves the body invariant
when entered with no live reservation recorded in the preceding trace. -/
theorem rsv_fail_inv (env : Env) (tr : Transaction) (pre : List Ev) (et : Nat)
    (h1 : msg_transferred pre = false) (h2 : count_free pre = 0)
    (h3 : has_in_progress pre = false)
    (h4 : count_reserve_ok pre = count_release pre) :
    body_inv (rsv_fail env tr pre et) := by
  unfold body_inv rsv_fail
  unfold msg_transferred count_free count_reserve_ok count_release has_in_progress at *
  cases ho : tr.origin <;> by_cases hp : env.proxyOk <;>
    simp_all [List.countP_append, List.countP_cons, List.any_append]

/-- The common reservation tail preserves the body invariant: crashing on a
zero destination aborts before Cleanup, otherwise the success or failure
switch runs with the matching live-reservation count. -/
theorem after_reserve_inv (env : Env) (tr : Transaction) (pre : List Ev)
    (rvOk : Bool) (dest : Nat) (et : Nat)
    (h1 : msg_transferred pre = false) (h2 : count_free pre = 0)
    (h3 : has_in_progress pre = false)
    (h4 : rvOk = true → count_reserve_ok pre = count_release pre + 1)
    (h5 : rvOk = false → count_reserve_ok pre = count_release pre) :
    body_inv (after_reserve env tr pre rvOk dest et) := by
  unfold after_reserve
  by_cases hd : dest = 0
  · simp only [hd, if_true, if_pos]
    exact ⟨by simpa using h1, h2, by intro hk; cases hk⟩
  · cases rvOk
    · simp only [hd, if_neg, Bool.false_eq_true, ite_false]
      exact rsv_fail_inv env tr pre et h1 h2 h3 (h5 rfl)
    · simp only [hd, if_neg, ite_true]
      exact rsv_success_inv env tr pre et h1 h2 h3 (h4 rfl)

/-- The mode-selection and reservation section establishes the body
invariant. -/
theorem reserve_stage_inv (env : Env) (tr : Transaction) (keyd : List Nat) (et : Nat) :
    body_inv (reserve_stage env tr keyd et) := by
  have leaf : ∀ (evs : List Ev) (t : Nat),
      msg_transferred evs = false → count_free evs = 0 →
      count_reserve_ok evs = count_release evs +
        (if has_in_progress evs then 1 else 0) →
      body_inv { events := evs, freeMsgp := true, endTime := t, halt := Halt.ok } := by
    intro evs t ha hb hc
    exact ⟨by simpa using ha, hb, fun _ => hc⟩
  unfold reserve_stage
  by_cases hs : tr.shippedOp
  · by_cases hw : tr.msg.info2Write
    · by_cases hdup : env.reserveMigrate.nDupl ≠ 0
      · rw [if_pos hs, if_neg (by simp [hw]), if_pos hdup]
        refine leaf _ et ?_ ?_ ?_ <;>
          simp [msg_transferred, count_free, count_reserve_ok, count_release,
            has_in_progress, List.countP_cons]
      · rw [if_pos hs, if_neg (by simp [hw]), if_neg hdup]
        refine after_reserve_inv env tr _ true _ et ?_ ?_ ?_ ?_ ?_ <;>
          first
          | (intro hh; exact absurd hh (by decide))
          | (intro hh; simp [count_reserve_ok, count_release, List.countP_cons, hh])
          | simp [msg_transferred, count_free, has_in_progress]
    · rw [if_pos hs, if_pos hw]
      refine leaf _ et ?_ ?_ ?_ <;>
        simp [msg_transferred, count_free, count_reserve_ok, count_release,
          has_in_progress, List.countP_cons]
  · by_cases hw : tr.msg.info2Write
    · by_cases hsec : should_security_check_data_op tr ∧ ¬ env.secDataOp Perm.write
      · rw [if_neg hs, if_pos hw, if_pos hsec]
        refine leaf _ et ?_ ?_ ?_ <;>
          simp [msg_transferred, count_free, count_reserve_ok, count_release,
            has_in_progress, List.countP_cons]
      · rw [if_neg hs, if_pos hw, if_neg hsec]
        refine after_reserve_inv env tr _ env.reserveWrite.rvOk _ et ?_ ?_ ?_ ?_ ?_ <;>
          first
          | (intro hh; exact absurd hh (by decide))
          | (intro hh; simp [count_reserve_ok, count_release, List.countP_cons, hh])
          | simp [msg_transferred, count_free, has_in_progress]
    · by_cases hr : tr.msg.info1Read
      · by_cases hsec : should_security_check_data_op tr ∧ ¬ env.secDataOp Perm.read
        · rw [if_neg hs, if_neg hw, if_pos hr, if_pos hsec]
          refine leaf _ et ?_ ?_ ?_ <;>
            simp [msg_transferred, count_free, count_reserve_ok, count_release,
              has_in_progress, List.countP_cons]
        · by_cases hdup : env.reserveRead.rvOk ∧ env.reserveRead.nDupl > 0
          · rw [if_neg hs, if_neg hw, if_pos hr, if_neg hsec, if_pos hdup]
            refine after_reserve_inv env tr _ env.reserveWrite.rvOk _ et ?_ ?_ ?_ ?_ ?_ <;>
              first
              | (intro hh; exact absurd hh (by decide))
              | (intro hh; simp [count_reserve_ok, count_release, List.countP_cons, hh])
              | simp [msg_transferred, count_free, has_in_progress]
          · rw [if_neg hs, if_neg hw, if_pos hr, if_neg hsec, if_neg hdup]
            refine after_reserve_inv env tr _ env.reserveRead.rvOk _ et ?_ ?_ ?_ ?_ ?_ <;>
              first
              | (intro hh; exact absurd hh (by decide))
              | (intro hh; simp [count_reserve_ok, count_release, List.countP_cons, hh])
              | simp [msg_transferred, count_free, has_in_progress]
      · rw [if_neg hs, if_neg hw, if_neg hr]
        refine leaf _ et ?_ ?_ ?_ <;>
          simp [msg_transferred, count_free, count_reserve_ok, count_release,
            has_in_progress, List.countP_cons]

/-- The single-record section establishes the body invariant. -/
theorem single_record_inv (env : Env) (tr : Transaction) :
    body_inv (single_record env tr) := by
  simp only [single_record]
  repeat' split
  all_goals first
    | exact reserve_stage_inv env tr _ _
    | exact ⟨by simp [msg_transferred], by simp [count_free],
        fun hk => by
          first
          | exact absurd hk (by decide)
          | simp [count_reserve_ok, count_release, has_in_progress]⟩

/-- The multi-record section establishes the body invariant. -/
theorem multi_record_inv (env : Env) (tr : Transaction) :
    body_inv (multi_record env tr) := by
  simp only [multi_record]
  repeat' split
  all_goals
    exact ⟨by simp [msg_transferred], by simp [count_free],
      fun _ => by simp [count_reserve_ok, count_release, has_in_progress]⟩

/-- The whole dispatcher body establishes the body invariant. -/
theorem tsvc_body_inv (env : Env) (tr : Transaction) :
    body_inv (tsvc_body env tr) := by
  unfold tsvc_body
  repeat' split
  all_goals first
    | exact multi_record_inv env tr
    | exact single_record_inv env tr
    | exact ⟨by simp [msg_transferred], by simp [count_free],
        fun _ => by simp [count_reserve_ok, count_release, has_in_progress]⟩

/-- count_free distributes over append. -/
theorem count_free_append (a b : List Ev) :
    count_free (a ++ b) = count_free a + count_free b := by
  simp [count_free, List.countP_append]

/-- count_release distributes over append. -/
theorem count_release_append (a b : List Ev) :
    count_release (a ++ b) = count_release a + count_release b := by
  simp [count_release, List.countP_append]

/-- count_reserve_ok distributes over append. -/
theorem count_reserve_ok_append (a b : List Ev) :
    count_reserve_ok (a ++ b) = count_reserve_ok a + count_reserve_ok b := by
  simp [count_reserve_ok, List.countP_append]

/-- msg_transferred distributes over append. -/
theorem msg_transferred_append (a b : List Ev) :
    msg_transferred (a ++ b) = (msg_transferred a || msg_transferred b) := by
  simp [msg_transferred, List.any_append]

/-- has_in_progress distributes over append. -/
theorem has_in_progress_append (a b : List Ev) :
    has_in_progress (a ++ b) = (has_in_progress a || has_in_progress b) := by
  simp [has_in_progress, List.any_append]

/-- count_free of the single free event. -/
theorem count_free_freeMsg : count_free [Ev.freeMsg] = 1 := rfl

/-- count_free of the empty trace. -/
theorem count_free_nil : count_free [] = 0 := rfl

/-- msg_transferred of the single free event. -/
theorem msg_transferred_freeMsg : msg_transferred [Ev.freeMsg] = false := rfl

/-- msg_transferred of the empty trace. -/
theorem msg_transferred_nil : msg_transferred [] = false := rfl

/-- count_reserve_ok of the single free event. -/
theorem count_reserve_ok_freeMsg : count_reserve_ok [Ev.freeMsg] = 0 := rfl

/-- count_reserve_ok of the empty trace. -/
theorem count_reserve_ok_nil : count_reserve_ok [] = 0 := rfl

/-- count_release of the single free event. -/
theorem count_release_freeMsg : count_release [Ev.freeMsg] = 0 := rfl

/-- count_release of the empty trace. -/
theorem count_release_nil : count_release [] = 0 := rfl

/-- has_in_progress of the single free event. -/
theorem has_in_progress_freeMsg : has_in_progress [Ev.freeMsg] = false := rfl

/-- has_in_progress of the empty trace. -/
theorem has_in_progress_nil : has_in_progress [] = false := rfl

/-- Claim C2: for every transaction the dispatcher processes without
aborting, the protocol message buffer is freed exactly once across all
terminal paths: zero frees when ownership was transferred (XDR handler,
executor returning in-progress or waiting, scan or query takeover,
accepted proxy divert) or the origin is batch, and exactly one free
otherwise. -/
theorem msg_freed_exactly_once (env : Env) (tr : Transaction)
    (h : (process_transaction env tr).halt = Halt.ok) :
    count_free (process_transaction env tr).events =
      if msg_transferred (process_transaction env tr).events = true ∨
          tr.origin = Origin.batch
      then 0 else 1 := by
  by_cases hx : tr.protoTypeXdr
  · simp [process_transaction, hx, msg_transferred, count_free]
  · obtain ⟨h1, h2, _⟩ := tsvc_body_inv env tr
    have hev : (process_transaction env tr).events =
        (tsvc_body env tr).events ++
          (if (tsvc_body env tr).halt = Halt.ok ∧ (tsvc_body env tr).freeMsgp ∧
              tr.origin ≠ Origin.batch then [Ev.freeMsg] else []) := by
      simp [process_transaction, hx]
    have hb : (tsvc_body env tr).halt = Halt.ok := by
      simp [process_transaction, hx] at h
      exact h
    rw [hev, count_free_append, msg_transferred_append, h2, h1]
    by_cases hf : (tsvc_body env tr).freeMsgp
    · by_cases ho : tr.origin = Origin.batch
      · rw [if_neg (by simp [ho])]
        rw [if_pos (Or.inr ho)]
        exact count_free_nil
      · rw [if_pos ⟨hb, hf, ho⟩]
        rw [if_neg (by simp [hf, ho, msg_transferred_freeMsg])]
        simp [hf, count_free_freeMsg]
    · rw [if_neg (by simp [hf])]
      rw [if_pos (by simp [hf, msg_transferred_nil])]
      exact count_free_nil

/-- Witness for claim C2 at a concrete client read that completes
synchronously: the dispatcher frees the message exactly once. -/
theorem msg_freed_exactly_once_witness :
    (process_transaction envA trRead).halt = Halt.ok ∧
    count_free (process_transaction envA trRead).events =
      (if msg_transferred (process_transaction envA trRead).events = true ∨
          trRead.origin = Origin.batch
       then 0 else 1) :=
  ⟨by decide, msg_freed_exactly_once envA trRead (by decide)⟩

/-- Claim C3: on every non-aborting run, granted partition reservations
balance releases exactly, except that an executor that returned
in-progress keeps exactly one reservation (together with the message). -/
theorem reservation_release_balance (env : Env) (tr : Transaction)
    (h : (process_transaction env tr).halt = Halt.ok) :
    count_reserve_ok (process_transaction env tr).events =
      count_release (process_transaction env tr).events +
        (if has_in_progress (process_transaction env tr).events = true then 1 else 0) := by
  by_cases hx : tr.protoTypeXdr
  · simp [process_transaction, hx, count_reserve_ok, count_release, has_in_progress]
  · obtain ⟨_, _, h3⟩ := tsvc_body_inv env tr
    have hev : (process_transaction env tr).events =
        (tsvc_body env tr).events ++
          (if (tsvc_body env tr).halt = Halt.ok ∧ (tsvc_body env tr).freeMsgp ∧
              tr.origin ≠ Origin.batch then [Ev.freeMsg] else []) := by
      simp [process_transaction, hx]
    have hb : (tsvc_body env tr).halt = Halt.ok := by
      simp [process_transaction, hx] at h
      exact h
    rw [hev, count_reserve_ok_append, count_release_append, has_in_progress_append]
    by_cases hc : (tsvc_body env tr).halt = Halt.ok ∧ (tsvc_body env tr).freeMsgp ∧
        tr.origin ≠ Origin.batch
    · rw [if_pos hc]
      simp only [count_reserve_ok_freeMsg, count_release_freeMsg, has_in_progress_freeMsg,
        Bool.or_false, Nat.add_zero]
      exact h3 hb
    · rw [if_neg hc]
      simp only [count_reserve_ok_nil, count_release_nil, has_in_progress_nil,
        Bool.or_false, Nat.add_zero]
      exact h3 hb

/-- Witness for claim C3 at a concrete read whose executor stays in
progress: the one granted reservation is not released. -/
theorem reservation_release_balance_witness :
    (process_transaction envInProg trRead).halt = Halt.ok ∧
    count_reserve_ok (process_transaction envInProg trRead).events =
      count_release (process_transaction envInProg trRead).events +
        (if has_in_progress (process_transaction envInProg trRead).events = true
         then 1 else 0) :=
  ⟨by decide, reservation_release_balance envInProg trRead (by decide)⟩

/-- The status switch leaves the deadline untouched. -/
theorem rsv_success_endTime (env : Env) (tr : Transaction) (pre : List Ev) (et : Nat) :
    (rsv_success env tr pre et).endTime = et := by
  simp only [rsv_success]
  cases env.execStatus (exec_choice tr) <;> rfl

/-- The failure switch leaves the deadline untouched. -/
theorem rsv_fail_endTime (env : Env) (tr : Transaction) (pre : List Ev) (et : Nat) :
    (rsv_fail env tr pre et).endTime = et := by
  unfold rsv_fail
  repeat' split
  all_goals rfl

/-- The common reservation tail leaves the deadline untouched. -/
theorem after_reserve_endTime (env : Env) (tr : Transaction) (pre : List Ev)
    (rvOk : Bool) (dest : Nat) (et : Nat) :
    (after_reserve env tr pre rvOk dest et).endTime = et := by
  unfold after_reserve
  split
  · rfl
  split
  · exact rsv_success_endTime env tr pre et
  · exact rsv_fail_endTime env tr pre et

/-- The reservation section leaves the deadline untouched. -/
theorem reserve_stage_endTime (env : Env) (tr : Transaction) (keyd : List Nat) (et : Nat) :
    (reserve_stage env tr keyd et).endTime = et := by
  simp only [reserve_stage]
  repeat' split
  all_goals first | rfl | apply after_reserve_endTime

/-- The single-record section always sets the deadline from the message
ttl when non-zero and from the configured maximum otherwise. -/
theorem single_record_endTime (env : Env) (tr : Transaction) :
    (single_record env tr).endTime =
      (if tr.msg.transactionTtl ≠ 0 then
        tr.startTime + tr.msg.transactionTtl * 1000000
      else tr.startTime + env.transactionMaxNs) := by
  simp only [single_record]
  repeat' split
  all_goals first | rfl | apply reserve_stage_endTime

/-- A transaction that passes authentication, namespace resolution and the
readiness gate and is not multi-record runs the single-record section. -/
theorem tsvc_body_single (env : Env) (tr : Transaction)
    (hsec : tr.origin = Origin.client → env.securityCheck = RCode.ok)
    (hns : tr.msg.nsField ≠ none)
    (hres : env.nsResolved = true)
    (hbal : env.balanceResolved = true ∨ tr.isNsupDelete = true)
    (hmulti : tr.isMultiRecord = false) :
    tsvc_body env tr = single_record env tr := by
  unfold tsvc_body
  rw [if_neg (by rintro ⟨hc, hne⟩; exact hne (hsec hc)),
    if_neg hns,
    if_neg (by simp [hres]),
    if_neg (by rintro ⟨hb2, hn2⟩; rcases hbal with hh | hh; exacts [hb2 hh, hn2 hh]),
    if_neg (by simp [hmulti])]

/-- Claim C5: for every single-record transaction that reaches the
deadline computation, the dispatcher sets end_time to start_time plus
transaction_ttl times one million when the message ttl is non-zero, and to
start_time plus the configured transaction_max_ns when it is zero. -/
theorem single_record_deadline (env : Env) (tr : Transaction)
    (hx : tr.protoTypeXdr = false)
    (hsec : tr.origin = Origin.client → env.securityCheck = RCode.ok)
    (hns : tr.msg.nsField ≠ none)
    (hres : env.nsResolved = true)
    (hbal : env.balanceResolved = true ∨ tr.isNsupDelete = true)
    (hmulti : tr.isMultiRecord = false) :
    (process_transaction env tr).endTime =
      (if tr.msg.transactionTtl ≠ 0 then
        tr.startTime + tr.msg.transactionTtl * 1000000
      else tr.startTime + env.transactionMaxNs) := by
  have hpe : (process_transaction env tr).endTime = (tsvc_body env tr).endTime := by
    simp [process_transaction, hx]
  rw [hpe, tsvc_body_single env tr hsec hns hres hbal hmulti]
  exact single_record_endTime env tr

/-- Witness for claim C5 at a concrete client read with ttl zero: the
deadline becomes start_time plus the configured maximum. -/
theorem single_record_deadline_witness :
    trRead.protoTypeXdr = false ∧
    (process_transaction envA trRead).endTime =
      (if trRead.msg.transactionTtl ≠ 0 then
        trRead.startTime + trRead.msg.transactionTtl * 1000000
      else trRead.startTime + envA.transactionMaxNs) :=
  ⟨rfl, single_record_deadline envA trRead rfl (fun _ => rfl) (by decide) rfl
    (Or.inl rfl) rfl⟩

/-- count_reserve_mode distributes over append. -/
theorem count_reserve_mode_append (m : RsvMode) (a b : List Ev) :
    count_reserve_mode m (a ++ b) = count_reserve_mode m a + count_reserve_mode m b := by
  simp [count_reserve_mode, List.countP_append]

/-- count_reserve_any distributes over append. -/
theorem count_reserve_any_append (a b : List Ev) :
    count_reserve_any (a ++ b) = count_reserve_any a + count_reserve_any b := by
  simp [count_reserve_any, List.countP_append]

/-- count_reply distributes over append. -/
theorem count_reply_append (c : RCode) (a b : List Ev) :
    count_reply c (a ++ b) = count_reply c a + count_reply c b := by
  simp [count_reply, List.countP_append]

/-- A mode-specific reservation count is bounded by the any-mode count. -/
theorem count_reserve_mode_le (m : RsvMode) (l : List Ev) :
    count_reserve_mode m l ≤ count_reserve_any l := by
  unfold count_reserve_mode count_reserve_any
  apply List.countP_mono_left
  intro a _ ha
  cases a <;> simp_all

/-- Everything after the reservation chain appends to the preceding trace
a tail holding no reservation attempt and at most one release. -/
theorem after_reserve_tail (env : Env) (tr : Transaction) (pre : List Ev)
    (rvOk : Bool) (dest : Nat) (et : Nat) :
    ∃ tail, (after_reserve env tr pre rvOk dest et).events = pre ++ tail ∧
      count_reserve_any tail = 0 ∧ count_release tail ≤ 1 := by
  simp only [after_reserve, rsv_success, rsv_fail]
  repeat' split
  all_goals first
    | exact ⟨[], (List.append_nil _).symm, rfl, by decide⟩
    | (refine ⟨_, rfl, ?_, ?_⟩ <;>
        simp [count_reserve_any, count_release, List.countP_cons])

/-- A single-record transaction that does not time out on the queue and
whose digest step succeeds runs the reservation section on tr_keyd. -/
theorem single_record_reaches_reserve (env : Env) (tr : Transaction)
    (htime : ¬ env.now > (if tr.msg.transactionTtl ≠ 0 then
        tr.startTime + tr.msg.transactionTtl * 1000000
      else tr.startTime + env.transactionMaxNs))
    (hdig : digest_stage_ok tr = true) :
    single_record env tr =
      reserve_stage env tr (tr_keyd env tr)
        (if tr.msg.transactionTtl ≠ 0 then tr.startTime + tr.msg.transactionTtl * 1000000
         else tr.startTime + env.transactionMaxNs) := by
  simp only [single_record]
  rw [if_neg htime]
  by_cases hd : tr.hasDigest
  · cases hdf : tr.msg.digestField with
    | none => simp [digest_stage_ok, hd, hdf] at hdig
    | some df =>
      have hsz : df.size = 20 := by simpa [digest_stage_ok, hd, hdf] using hdig
      simp [tr_keyd, hd, hdf, hsz]
  · by_cases hb : tr.isBatchSub
    · simp [tr_keyd, hd, hb]
    · cases hkf : tr.msg.keyField with
      | none => simp [digest_stage_ok, hd, hb, hkf] at hdig
      | some kf =>
        by_cases hset : tr.hasSet
        · cases hsf : tr.msg.setField with
          | none => simp [digest_stage_ok, hd, hb, hkf, hset, hsf] at hdig
          | some sf => simp [tr_keyd, hd, hb, hkf, hset, hsf]
        · simp [digest_stage_ok, hd, hb, hkf, hset] at hdig

/-- A mode count is zero whenever the any-mode count is zero. -/
theorem count_reserve_mode_zero (m : RsvMode) (l : List Ev)
    (h : count_reserve_any l = 0) : count_reserve_mode m l = 0 :=
  Nat.le_zero.mp (h ▸ count_reserve_mode_le m l)

/-- Under the reach conditions, the dispatcher trace is the reservation
section trace followed by a cleanup tail carrying no reservation, release
or reply events. -/
theorem process_events_reserve (env : Env) (tr : Transaction)
    (hx : tr.protoTypeXdr = false)
    (hsec : tr.origin = Origin.client → env.securityCheck = RCode.ok)
    (hns : tr.msg.nsField ≠ none)
    (hres : env.nsResolved = true)
    (hbal : env.balanceResolved = true ∨ tr.isNsupDelete = true)
    (hmulti : tr.isMultiRecord = false)
    (htime : ¬ env.now > (if tr.msg.transactionTtl ≠ 0 then
        tr.startTime + tr.msg.transactionTtl * 1000000
      else tr.startTime + env.transactionMaxNs))
    (hdig : digest_stage_ok tr = true) :
    ∃ post, (process_transaction env tr).events =
        (reserve_stage env tr (tr_keyd env tr)
          (if tr.msg.transactionTtl ≠ 0 then
            tr.startTime + tr.msg.transactionTtl * 1000000
          else tr.startTime + env.transactionMaxNs)).events ++ post ∧
      count_reserve_any post = 0 ∧ count_release post = 0 ∧
      (∀ c, count_reply c post = 0) := by
  have hb : tsvc_body env tr =
      reserve_stage env tr (tr_keyd env tr)
        (if tr.msg.transactionTtl ≠ 0 then
          tr.startTime + tr.msg.transactionTtl * 1000000
        else tr.startTime + env.transactionMaxNs) := by
    rw [tsvc_body_single env tr hsec hns hres hbal hmulti]
    exact single_record_reaches_reserve env tr htime hdig
  have hev : (process_transaction env tr).events =
      (tsvc_body env tr).events ++
        (if (tsvc_body env tr).halt = Halt.ok ∧ (tsvc_body env tr).freeMsgp ∧
            tr.origin ≠ Origin.batch then [Ev.freeMsg] else []) := by
    simp [process_transaction, hx]
  refine ⟨(if (tsvc_body env tr).halt = Halt.ok ∧ (tsvc_body env tr).freeMsgp ∧
      tr.origin ≠ Origin.batch then [Ev.freeMsg] else []), ?_, ?_, ?_, ?_⟩
  · rw [hev, hb]
  · split <;> rfl
  · split <;> rfl
  · intro c
    split <;> rfl

/-- Reduction of the reservation section on the plain read path. -/
theorem reserve_stage_read_path (env : Env) (tr : Transaction) (keyd : List Nat) (et : Nat)
    (hship : tr.shippedOp = false)
    (hw : tr.msg.info2Write = false)
    (hr : tr.msg.info1Read = true)
    (hsecr : should_security_check_data_op tr = true → env.secDataOp Perm.read = true) :
    reserve_stage env tr keyd et =
      (if env.reserveRead.rvOk = true ∧ env.reserveRead.nDupl > 0 then
        after_reserve env tr
          [Ev.reserve RsvMode.read (env.pidOf keyd) true, Ev.release,
            Ev.reserve RsvMode.write (env.pidOf keyd) env.reserveWrite.rvOk]
          env.reserveWrite.rvOk env.reserveWrite.dest et
      else
        after_reserve env tr
          [Ev.reserve RsvMode.read (env.pidOf keyd) env.reserveRead.rvOk]
          env.reserveRead.rvOk env.reserveRead.dest et) := by
  simp only [reserve_stage]
  rw [if_neg (by simp [hship]), if_neg (by simp [hw]), if_pos hr,
    if_neg (by rintro ⟨ha, hb2⟩; exact hb2 (hsecr ha))]

/-- Reduction of the reservation section for a shipped op without the
write bit. -/
theorem reserve_stage_shipped_not_write (env : Env) (tr : Transaction)
    (keyd : List Nat) (et : Nat)
    (hship : tr.shippedOp = true) (hw : tr.msg.info2Write = false) :
    reserve_stage env tr keyd et =
      { events := [Ev.reply RCode.failUnknown], freeMsgp := true, endTime := et,
        halt := Halt.ok } := by
  simp only [reserve_stage]
  rw [if_pos hship, if_pos (by simp [hw])]

/-- Reduction of the reservation section for a shipped op with the write
bit. -/
theorem reserve_stage_shipped_write (env : Env) (tr : Transaction)
    (keyd : List Nat) (et : Nat)
    (hship : tr.shippedOp = true) (hw : tr.msg.info2Write = true) :
    reserve_stage env tr keyd et =
      (if env.reserveMigrate.nDupl ≠ 0 then
        { events := [Ev.reserve RsvMode.migrate (env.pidOf keyd) true, Ev.release,
            Ev.reply RCode.failUnknown], freeMsgp := true, endTime := et,
          halt := Halt.ok }
      else
        after_reserve env tr [Ev.reserve RsvMode.migrate (env.pidOf keyd) true] true
          env.reserveMigrate.dest et) := by
  simp only [reserve_stage]
  rw [if_pos hship, if_neg (by simp [hw])]

/-- Claim C4: on the single-record read path, a granted read reservation
returning a positive duplicate count is released exactly once and
immediately upgraded to a write reservation of the same partition; with a
zero duplicate count no write reservation is attempted and no upgrade
release happens. -/
theorem read_dupl_upgrade (env : Env) (tr : Transaction)
    (hx : tr.protoTypeXdr = false)
    (hsec : tr.origin = Origin.client → env.securityCheck = RCode.ok)
    (hns : tr.msg.nsField ≠ none)
    (hres : env.nsResolved = true)
    (hbal : env.balanceResolved = true ∨ tr.isNsupDelete = true)
    (hmulti : tr.isMultiRecord = false)
    (htime : ¬ env.now > (if tr.msg.transactionTtl ≠ 0 then
        tr.startTime + tr.msg.transactionTtl * 1000000
      else tr.startTime + env.transactionMaxNs))
    (hdig : digest_stage_ok tr = true)
    (hship : tr.shippedOp = false)
    (hw : tr.msg.info2Write = false)
    (hr : tr.msg.info1Read = true)
    (hsecr : should_security_check_data_op tr = true → env.secDataOp Perm.read = true)
    (hrv : env.reserveRead.rvOk = true) :
    (env.reserveRead.nDupl > 0 →
      count_reserve_mode RsvMode.read (process_transaction env tr).events = 1 ∧
      ∃ l2, (process_transaction env tr).events =
        [Ev.reserve RsvMode.read (env.pidOf (tr_keyd env tr)) true, Ev.release,
          Ev.reserve RsvMode.write (env.pidOf (tr_keyd env tr)) env.reserveWrite.rvOk]
          ++ l2) ∧
    (env.reserveRead.nDupl = 0 →
      count_reserve_mode RsvMode.write (process_transaction env tr).events = 0 ∧
      count_release (process_transaction env tr).events ≤ 1 ∧
      ∃ l2, (process_transaction env tr).events =
        [Ev.reserve RsvMode.read (env.pidOf (tr_keyd env tr)) true] ++ l2) := by
  obtain ⟨post, hpe, hp1, hp2, hp3⟩ :=
    process_events_reserve env tr hx hsec hns hres hbal hmulti htime hdig
  rw [reserve_stage_read_path env tr _ _ hship hw hr hsecr] at hpe
  constructor
  · intro hdup
    rw [if_pos ⟨hrv, hdup⟩] at hpe
    obtain ⟨tail, ht1, ht2, ht3⟩ :=
      after_reserve_tail env tr
        [Ev.reserve RsvMode.read (env.pidOf (tr_keyd env tr)) true, Ev.release,
          Ev.reserve RsvMode.write (env.pidOf (tr_keyd env tr)) env.reserveWrite.rvOk]
        env.reserveWrite.rvOk env.reserveWrite.dest
        (if tr.msg.transactionTtl ≠ 0 then tr.startTime + tr.msg.transactionTtl * 1000000
         else tr.startTime + env.transactionMaxNs)
    rw [ht1, List.append_assoc] at hpe
    constructor
    · have e1 : count_reserve_mode RsvMode.read
          [Ev.reserve RsvMode.read (env.pidOf (tr_keyd env tr)) true, Ev.release,
            Ev.reserve RsvMode.write (env.pidOf (tr_keyd env tr)) env.reserveWrite.rvOk]
          = 1 := by
        simp [count_reserve_mode, List.countP_cons]
      have e2 : count_reserve_mode RsvMode.read (tail ++ post) = 0 := by
        rw [count_reserve_mode_append, count_reserve_mode_zero RsvMode.read tail ht2,
          count_reserve_mode_zero RsvMode.read post hp1]
      rw [hpe, count_reserve_mode_append, e1, e2]
    · exact ⟨tail ++ post, hpe⟩
  · intro hd0
    rw [if_neg (by simp [hd0]), hrv] at hpe
    obtain ⟨tail, ht1, ht2, ht3⟩ :=
      after_reserve_tail env tr
        [Ev.reserve RsvMode.read (env.pidOf (tr_keyd env tr)) true]
        true env.reserveRead.dest
        (if tr.msg.transactionTtl ≠ 0 then tr.startTime + tr.msg.transactionTtl * 1000000
         else tr.startTime + env.transactionMaxNs)
    rw [ht1, List.append_assoc] at hpe
    refine ⟨?_, ?_, ⟨tail ++ post, hpe⟩⟩
    · have e1 : count_reserve_mode RsvMode.write
          [Ev.reserve RsvMode.read (env.pidOf (tr_keyd env tr)) true] = 0 := by
        simp [count_reserve_mode, List.countP_cons]
      have e2 : count_reserve_mode RsvMode.write (tail ++ post) = 0 := by
        rw [count_reserve_mode_append, count_reserve_mode_zero RsvMode.write tail ht2,
          count_reserve_mode_zero RsvMode.write post hp1]
      rw [hpe, count_reserve_mode_append, e1, e2]
    · have e1 : count_release
          [Ev.reserve RsvMode.read (env.pidOf (tr_keyd env tr)) true] = 0 := rfl
      rw [hpe, count_release_append, count_release_append, e1, hp2]
      omega

/-- Witness for claim C4 at a concrete client read whose read reservation
returns two duplicates: the trace starts with the granted read
reservation, its release and the write reservation of the same
partition. -/
theorem read_dupl_upgrade_witness :
    ∃ l2, (process_transaction envDupl trRead).events =
      [Ev.reserve RsvMode.read (envDupl.pidOf (tr_keyd envDupl trRead)) true, Ev.release,
        Ev.reserve RsvMode.write (envDupl.pidOf (tr_keyd envDupl trRead))
          envDupl.reserveWrite.rvOk] ++ l2 :=
  ((read_dupl_upgrade envDupl trRead rfl (fun _ => rfl) (by decide) rfl (Or.inl rfl) rfl
      (by decide) (by decide) rfl rfl rfl (fun _ => rfl) rfl).1 (by decide)).2

/-- Claim C9: a shipped op whose write bit is clear draws exactly one
FAIL_UNKNOWN reply and no reservation attempt of any kind; a shipped op
with the write bit set performs exactly one migrate reservation and no
read or write reservation. -/
theorem shipped_op_paths (env : Env) (tr : Transaction)
    (hx : tr.protoTypeXdr = false)
    (hsec : tr.origin = Origin.client → env.securityCheck = RCode.ok)
    (hns : tr.msg.nsField ≠ none)
    (hres : env.nsResolved = true)
    (hbal : env.balanceResolved = true ∨ tr.isNsupDelete = true)
    (hmulti : tr.isMultiRecord = false)
    (htime : ¬ env.now > (if tr.msg.transactionTtl ≠ 0 then
        tr.startTime + tr.msg.transactionTtl * 1000000
      else tr.startTime + env.transactionMaxNs))
    (hdig : digest_stage_ok tr = true)
    (hship : tr.shippedOp = true) :
    (tr.msg.info2Write = false →
      count_reply RCode.failUnknown (process_transaction env tr).events = 1 ∧
      count_reserve_any (process_transaction env tr).events = 0) ∧
    (tr.msg.info2Write = true →
      count_reserve_mode RsvMode.migrate (process_transaction env tr).events = 1 ∧
      count_reserve_mode RsvMode.read (process_transaction env tr).events = 0 ∧
      count_reserve_mode RsvMode.write (process_transaction env tr).events = 0) := by
  obtain ⟨post, hpe, hp1, hp2, hp3⟩ :=
    process_events_reserve env tr hx hsec hns hres hbal hmulti htime hdig
  constructor
  · intro hw
    rw [reserve_stage_shipped_not_write env tr _ _ hship hw] at hpe
    constructor
    · rw [hpe, count_reply_append, hp3]
      rfl
    · rw [hpe, count_reserve_any_append, hp1]
      rfl
  · intro hw
    rw [reserve_stage_shipped_write env tr _ _ hship hw] at hpe
    by_cases hdp : env.reserveMigrate.nDupl ≠ 0
    · rw [if_pos hdp] at hpe
      refine ⟨?_, ?_, ?_⟩ <;>
        · rw [hpe, count_reserve_mode_append, count_reserve_mode_zero _ post hp1]
          rfl
    · rw [if_neg hdp] at hpe
      obtain ⟨tail, ht1, ht2, ht3⟩ :=
        after_reserve_tail env tr
          [Ev.reserve RsvMode.migrate (env.pidOf (tr_keyd env tr)) true]
          true env.reserveMigrate.dest
          (if tr.msg.transactionTtl ≠ 0 then tr.startTime + tr.msg.transactionTtl * 1000000
           else tr.startTime + env.transactionMaxNs)
      rw [ht1, List.append_assoc] at hpe
      have hz : ∀ m, count_reserve_mode m (tail ++ post) = 0 := by
        intro m
        rw [count_reserve_mode_append, count_reserve_mode_zero m tail ht2,
          count_reserve_mode_zero m post hp1]
      refine ⟨?_, ?_, ?_⟩ <;>
        · rw [hpe, count_reserve_mode_append, hz]
          rfl

/-- Witness for claim C9 at a concrete shipped op from a peer proxy whose
write bit is clear: one FAIL_UNKNOWN reply, no reservation attempted. -/
theorem shipped_op_paths_witness :
    count_reply RCode.failUnknown (process_transaction envA trShipped).events = 1 ∧
    count_reserve_any (process_transaction envA trShipped).events = 0 :=
  (shipped_op_paths envA trShipped rfl (fun _ => rfl) (by decide) rfl (Or.inl rfl) rfl
      (by decide) (by decide) rfl).1 rfl
